import Mathlib

/-!
Verification of the pricing and coupon-resolution core of the FarnaTask
e-commerce backend, together with the admin-layer operations that surround
it (`product/admin.py`).

The repository sources at hand are `product/admin.py`,
`product/tests/test_flash_sale.py` and a query-logging middleware.  The
price resolver (`Product.get_final_price` in `product/models.py`) and the
coupon validator (`verify_coupon` in `product/utils/coupon_service.py`)
are referenced by the tests and the admin but their bodies are not among
the sources, so they are modelled from the specification, as noted on each
such definition.  The admin bulk actions and the final-price display helper
are embedded directly from `product/admin.py`.

Timestamps are modelled as integers (seconds relative to an arbitrary
epoch); monetary values as rationals (the backend stores decimals).
-/

namespace FarnaTask

/-- Discount kind shared by flash-sale discounts and coupons; the backend
stores it as the string field `discount_type` with values
`percent` / `fixed`. -/
inductive DiscountType where
  | percent
  | fixed

/-- A flash sale window: `title`, `start_time`, `end_time`
(model `FlashSale` in the repository). -/
structure FlashSale where
  title : String
  start_time : Int
  end_time : Int

/-- Modelled from the spec: `FlashSale.is_running` lives in
`product/models.py`, absent from the sources; the spec defines a window as
*running* iff the current time lies in `[start, end]`. -/
def FlashSale.is_running (fs : FlashSale) (now : Int) : Bool :=
  decide (fs.start_time ≤ now) && decide (now ≤ fs.end_time)

/-- A flash-sale discount record attaching a sale window to a product
(model `FlashSaleProduct`; fields as listed in `FlashSaleProductInline`
in `product/admin.py`). -/
structure FlashSaleProduct where
  flash_sale : FlashSale
  discount_type : DiscountType
  discount_value : ℚ
  limited_stock : Nat

/-- A product: base price (decimal), stock count, availability flag. -/
structure Product where
  name : String
  price : ℚ
  stock : Nat
  is_available : Bool

/-- Modelled from the spec: the body of `Product.get_final_price`
(`product/models.py`) is absent from the sources.  Contract 4.1:
`resolve_price(product, active_discounts_for_product, now) -> price`.
Filters the discounts whose window is running at `now`; if none is
running, returns the base price unchanged; if one is running, applies it:
`percent` → `base * (1 - value/100)`, `fixed` → `base - value` floored at
zero.  When several run simultaneously the first in query order wins. -/
def resolve_price (product : Product) (active_discounts : List FlashSaleProduct)
    (now : Int) : ℚ :=
  match active_discounts.filter (fun d => d.flash_sale.is_running now) with
  | [] => product.price
  | d :: _ =>
    match d.discount_type with
    | .percent => product.price * (1 - d.discount_value / 100)
    | .fixed => max (product.price - d.discount_value) 0

/-- A coupon record; fields as listed in `CouponAdmin` in
`product/admin.py` (`end_date` is optional / open-ended per the spec). -/
structure Coupon where
  code : String
  description : String
  discount_type : DiscountType
  discount_value : ℚ
  is_active : Bool
  start_date : Int
  end_date : Option Int
  min_order_amount : ℚ
  max_usage : Option Nat
  usage_count : Nat

/-- A cart item: a product, the flash-sale discount records attached to
that product, and a quantity. -/
structure CartItem where
  product : Product
  flash_discounts : List FlashSaleProduct
  quantity : Nat

/-- Whether this cart item currently carries an active flash-sale
discount. -/
def CartItem.has_active_flash_sale (it : CartItem) (now : Int) : Bool :=
  it.flash_discounts.any (fun d => d.flash_sale.is_running now)

/-- Cart subtotal: effective price of each item times its quantity,
summed. -/
def cart_subtotal (cart : List CartItem) (now : Int) : ℚ :=
  (cart.map (fun it =>
    resolve_price it.product it.flash_discounts now * it.quantity)).sum

/-- Outcome of coupon validation; the five rejection codes of spec §7
plus success carrying the computed discount amount. -/
inductive CouponOutcome where
  | NOT_FOUND
  | EXPIRED
  | CONFLICT
  | EXHAUSTED
  | BELOW_MINIMUM
  | SUCCESS (amount : ℚ)

/-- Look a coupon up by code in the registry snapshot. -/
def find_coupon (registry : List Coupon) (code : String) : Option Coupon :=
  registry.find? (fun c => c.code == code)

/-- Check 1 of spec §4.2: the code fails to resolve to an existing,
active coupon. -/
def coupon_missing (registry : List Coupon) (code : String) : Bool :=
  match find_coupon registry code with
  | none => true
  | some c => !c.is_active

/-- Check 2 of spec §4.2: `now` lies within `[start_date, end_date]`,
with a missing `end_date` read as open-ended. -/
def Coupon.in_window (c : Coupon) (now : Int) : Bool :=
  decide (c.start_date ≤ now) &&
    (match c.end_date with
     | none => true
     | some e => decide (now ≤ e))

/-- Check 4 of spec §4.2: `max_usage` is set and `usage_count` has
reached it. -/
def Coupon.exhausted (c : Coupon) : Bool :=
  match c.max_usage with
  | some m => decide (m ≤ c.usage_count)
  | none => false

/-- Discount amount of spec §4.2 step 6: `percent` → `subtotal * value/100`,
`fixed` → `value`. -/
def discount_amount (t : DiscountType) (value subtotal : ℚ) : ℚ :=
  match t with
  | .percent => subtotal * (value / 100)
  | .fixed => value

/-- Successful-outcome amount: the discount amount clipped to not exceed
the subtotal. -/
def Coupon.success_amount (c : Coupon) (subtotal : ℚ) : ℚ :=
  min (discount_amount c.discount_type c.discount_value subtotal) subtotal

/-- Modelled from the spec: the body of `verify_coupon`
(`product/utils/coupon_service.py`) is absent from the sources.  Contract
4.2: checks applied in fixed precedence order, first failing check wins —
unknown-or-inactive code, date window, flash-sale conflict, usage limit,
minimum order amount — else success with the clipped discount amount.
The human-readable detail component of the result is not modelled. -/
def verify_coupon (cart : List CartItem) (code : String)
    (registry : List Coupon) (now : Int) : CouponOutcome :=
  match find_coupon registry code with
  | none => .NOT_FOUND
  | some c =>
    if !c.is_active then .NOT_FOUND
    else if !c.in_window now then .EXPIRED
    else if cart.any (fun it => it.has_active_flash_sale now) then .CONFLICT
    else if c.exhausted then .EXHAUSTED
    else if cart_subtotal cart now < c.min_order_amount then .BELOW_MINIMUM
    else .SUCCESS (c.success_amount (cart_subtotal cart now))

/-- The five rejection checks of spec §4.2 in their stated precedence
order, each paired with the outcome it produces when it fails. -/
def rejection_checks (cart : List CartItem) (code : String)
    (registry : List Coupon) (now : Int) : List (Bool × CouponOutcome) :=
  [ (coupon_missing registry code, .NOT_FOUND),
    ((find_coupon registry code).any (fun c => !c.in_window now), .EXPIRED),
    (cart.any (fun it => it.has_active_flash_sale now), .CONFLICT),
    ((find_coupon registry code).any (fun c => c.exhausted), .EXHAUSTED),
    ((find_coupon registry code).any
      (fun c => decide (cart_subtotal cart now < c.min_order_amount)),
      .BELOW_MINIMUM) ]

/-- Outcome of the first failing rejection check, success when none
fails. -/
def first_failing_outcome (cart : List CartItem) (code : String)
    (registry : List Coupon) (now : Int) : CouponOutcome :=
  match (rejection_checks cart code registry now).find? (fun pr => pr.1) with
  | some pr => pr.2
  | none =>
    match find_coupon registry code with
    | some c => .SUCCESS (c.success_amount (cart_subtotal cart now))
    | none => .NOT_FOUND

/-- Modelled from the spec: §4.1 and §7 state that price resolution has no
side effects.  The call is modelled with its state threaded explicitly: the
result pairs the resolved price with the product and discount records as
they stand after the call. -/
def resolve_price_call (product : Product) (active_discounts : List FlashSaleProduct)
    (now : Int) : ℚ × Product × List FlashSaleProduct :=
  (resolve_price product active_discounts now, product, active_discounts)

/-- Modelled from the spec: §4.2 and §7 state that validation never writes
state (the `usage_count` increment happens only at order completion, outside
this core).  The call is modelled with its state threaded explicitly: the
result pairs the outcome with the cart and the coupon registry as they
stand after the call. -/
def verify_coupon_call (cart : List CartItem) (code : String)
    (registry : List Coupon) (now : Int) :
    CouponOutcome × List CartItem × List Coupon :=
  (verify_coupon cart code registry now, cart, registry)

/-- Well-formedness of a flash-sale discount record relative to the base
price of the product it attaches to (spec §3 invariant):
percent value in (0,100]; fixed value at most the base price. -/
def FlashSaleProduct.wf (d : FlashSaleProduct) (base : ℚ) : Prop :=
  match d.discount_type with
  | .percent => 0 < d.discount_value ∧ d.discount_value ≤ 100
  | .fixed => d.discount_value ≤ base

/-- Well-formedness of a coupon record (spec §3 invariant):
`usage_count ≤ max_usage` whenever `max_usage` is set. -/
def Coupon.wf (c : Coupon) : Prop :=
  ∀ m, c.max_usage = some m → c.usage_count ≤ m

/-- Modelled from the spec: `CouponAdmin.save_model` (admin.py lines
219-222) runs `obj.full_clean()` before saving; the validators themselves
live in `product/models.py`, absent from the sources.  Modelled as the
data-entry gate of spec §3: a coupon is persisted only when
`usage_count ≤ max_usage` whenever `max_usage` is set. -/
def save_coupon (c : Coupon) : Option Coupon :=
  match c.max_usage with
  | some m => if c.usage_count ≤ m then some c else none
  | none => some c

/-- Modelled from the spec: flash-sale discount records are entered through
`FlashSaleProductInline` (admin.py lines 45-49); the field validators live
in `product/models.py`, absent from the sources.  Modelled as the
data-entry gate of spec §3: percent value in (0,100], fixed value at most
the base price. -/
def save_flash_sale_product (base : ℚ) (d : FlashSaleProduct) :
    Option FlashSaleProduct :=
  match d.discount_type with
  | .percent =>
    if 0 < d.discount_value ∧ d.discount_value ≤ 100 then some d else none
  | .fixed => if d.discount_value ≤ base then some d else none

/-- Order statuses used by the admin bulk actions in `product/admin.py`. -/
inductive OrderStatus where
  | pending
  | paid
  | shipped
  | completed
  | canceled

/-- An order as the admin actions see it: identifier, current status. -/
structure Order where
  id : Nat
  status : OrderStatus

/-- `queryset.update(status=s)`: sets the status of every order in the
queryset, leaving identifiers untouched. -/
def queryset_update_status (qs : List Order) (s : OrderStatus) : List Order :=
  qs.map (fun o => { o with status := s })

/-- `OrderAdmin.mark_as_paid` (admin.py lines 296-299):
`queryset.update(status='paid')`. -/
def mark_as_paid (qs : List Order) : List Order :=
  queryset_update_status qs .paid

/-- `OrderAdmin.mark_as_shipped` (admin.py lines 302-305):
`queryset.update(status='shipped')`. -/
def mark_as_shipped (qs : List Order) : List Order :=
  queryset_update_status qs .shipped

/-- `OrderAdmin.mark_as_completed` (admin.py lines 308-311):
`queryset.update(status='completed')`. -/
def mark_as_completed (qs : List Order) : List Order :=
  queryset_update_status qs .completed

/-- `OrderAdmin.mark_as_canceled` (admin.py lines 315-318):
`queryset.update(status='canceled')`. -/
def mark_as_canceled (qs : List Order) : List Order :=
  queryset_update_status qs .canceled

/-- A product as `ProductAdmin.get_final_price_display` sees it: the base
price field together with the result of the `obj.get_final_price()` call,
which either returns a price or raises (`Except.error` carries the
exception's message). -/
structure AdminProduct where
  price : ℚ
  final_price_result : Except String ℚ

/-- `ProductAdmin.get_final_price_display` (admin.py lines 167-172):
tries `obj.get_final_price()`, falls back to `obj.price` on any exception,
and renders the chosen value as a string. -/
def get_final_price_display (obj : AdminProduct) : String :=
  match obj.final_price_result with
  | .ok p => toString p
  | .error _ => toString obj.price

/-! Concrete records used by the witnesses, drawn from
`product/tests/test_flash_sale.py` (times relative to `now = 0`, in
seconds). -/

/-- The running sale of the tests: started an hour ago, ends in two. -/
def summer_sale : FlashSale :=
  { title := "Summer Sale", start_time := -3600, end_time := 7200 }

/-- The expired sale of the tests: ran from five days ago to one day ago. -/
def old_sale : FlashSale :=
  { title := "Old Sale", start_time := -432000, end_time := -86400 }

/-- The product of the tests: base price 1000, stock 10. -/
def flash_phone : Product :=
  { name := "Flash Phone", price := 1000, stock := 10, is_available := true }

/-- 50% discount on the running sale. -/
def percent50 : FlashSaleProduct :=
  { flash_sale := summer_sale, discount_type := .percent,
    discount_value := 50, limited_stock := 3 }

/-- Fixed discount of 300 on the running sale. -/
def fixed300 : FlashSaleProduct :=
  { flash_sale := summer_sale, discount_type := .fixed,
    discount_value := 300, limited_stock := 2 }

/-- 50% discount attached to the expired sale. -/
def expired50 : FlashSaleProduct :=
  { flash_sale := old_sale, discount_type := .percent,
    discount_value := 50, limited_stock := 1 }

/-- The coupon of the conflict test: active percent-20 coupon, open-ended
window starting at 0. -/
def save20 : Coupon :=
  { code := "SAVE20", description := "", discount_type := .percent,
    discount_value := 20, is_active := true, start_date := 0,
    end_date := none, min_order_amount := 0, max_usage := none,
    usage_count := 0 }

/-- A second coupon, distinct code, used for registry permutations. -/
def other10 : Coupon :=
  { code := "OTHER10", description := "", discount_type := .fixed,
    discount_value := 10, is_active := true, start_date := 0,
    end_date := none, min_order_amount := 0, max_usage := some 5,
    usage_count := 2 }

/-- A cart item holding the flash-sale product (active discount). -/
def flash_item : CartItem :=
  { product := flash_phone, flash_discounts := [percent50], quantity := 1 }

/-- A cart item with no flash-sale discount attached. -/
def plain_item : CartItem :=
  { product := flash_phone, flash_discounts := [], quantity := 1 }

/-- A second plain cart item, for cart permutations. -/
def plain_item2 : CartItem :=
  { product := flash_phone, flash_discounts := [], quantity := 2 }

/-- Claim C1: for every product with base price `b` and exactly one
running flash-sale discount, `resolve_price` returns `b * (1 - value/100)`
when the discount kind is percent, and `b - value` floored at zero when
the kind is fixed. -/
theorem resolve_price_single_running_discount
    (p : Product) (ds : List FlashSaleProduct) (now : Int) (d : FlashSaleProduct)
    (h : ds.filter (fun x => x.flash_sale.is_running now) = [d]) :
    resolve_price p ds now =
      match d.discount_type with
      | .percent => p.price * (1 - d.discount_value / 100)
      | .fixed => max (p.price - d.discount_value) 0 := by
  unfold resolve_price
  rw [h]

/-- Witness for C1: a percent discount of 50 on base 1000 yields 500 and a
fixed discount of 300 on base 1000 yields 700. -/
theorem resolve_price_single_running_discount_witness :
    ([percent50].filter (fun x => x.flash_sale.is_running 0) = [percent50]) ∧
    resolve_price flash_phone [percent50] 0 = 500 ∧
    resolve_price flash_phone [fixed300] 0 = 700 := by
  refine ⟨ rfl, ?_, ?_⟩
  · rw [resolve_price_single_running_discount flash_phone [percent50] 0
      percent50 rfl]
    norm_num [percent50, flash_phone]
  · rw [resolve_price_single_running_discount flash_phone [fixed300] 0
      fixed300 rfl]
    norm_num [fixed300, flash_phone]

/-- Claim C2: for every product, if no flash-sale discount attached to it
has a window running at `now`, `resolve_price` returns the base price
unchanged. -/
theorem resolve_price_no_running_discount
    (p : Product) (ds : List FlashSaleProduct) (now : Int)
    (h : ∀ d ∈ ds, d.flash_sale.is_running now = false) :
    resolve_price p ds now = p.price := by
  unfold resolve_price
  have hnil : ds.filter (fun d => d.flash_sale.is_running now) = [] := by
    rw [List.filter_eq_nil_iff]
    intro a ha
    simp [h a ha]
  rw [hnil]

/-- Witness for C2: an expired 50% discount on base 1000 leaves the price
at 1000. -/
theorem resolve_price_no_running_discount_witness :
    (∀ d ∈ [expired50], d.flash_sale.is_running 0 = false) ∧
    resolve_price flash_phone [expired50] 0 = 1000 := by
  have h : ∀ d ∈ [expired50], d.flash_sale.is_running 0 = false := by
    intro d hd
    simp only [List.mem_singleton] at hd
    subst hd
    rfl
  refine ⟨h, ?_⟩
  rw [resolve_price_no_running_discount flash_phone [expired50] 0 h]
  norm_num [flash_phone]

/-- `List.any` is invariant under permutation of the list. -/
theorem any_of_perm {α : Type} {l l2 : List α} (h : l.Perm l2) (f : α → Bool) :
    l.any f = l2.any f := by
  rw [List.any_eq, List.any_eq]
  simp only [h.mem_iff]

/-- The cart subtotal is invariant under permutation of the cart. -/
theorem cart_subtotal_of_perm {cart cart2 : List CartItem}
    (h : cart.Perm cart2) (now : Int) :
    cart_subtotal cart now = cart_subtotal cart2 now :=
  List.Perm.sum_eq (h.map _)

/-- Coupon lookup is invariant under permutation of the registry when
coupon codes are unique. -/
theorem find_coupon_of_perm {r1 r2 : List Coupon} (h : r1.Perm r2)
    (hnd : (r1.map Coupon.code).Nodup) (code : String) :
    find_coupon r1 code = find_coupon r2 code := by
  unfold find_coupon
  cases h1 : r1.find? (fun c => c.code == code) with
  | none =>
    have hall := List.find?_eq_none.mp h1
    exact (List.find?_eq_none.mpr (fun x hx => hall x (h.mem_iff.mpr hx))).symm
  | some c =>
    have hpc : (c.code == code) = true :=
      List.find?_some (p := fun c : Coupon => c.code == code) h1
    have hmem : c ∈ r1 := List.mem_of_find?_eq_some h1
    cases h2 : r2.find? (fun c => c.code == code) with
    | none =>
      exact absurd hpc (List.find?_eq_none.mp h2 c (h.mem_iff.mp hmem))
    | some c2 =>
      have hpc2 : (c2.code == code) = true :=
        List.find?_some (p := fun c : Coupon => c.code == code) h2
      have hmem2 : c2 ∈ r1 := h.mem_iff.mpr (List.mem_of_find?_eq_some h2)
      have hcode : c.code = c2.code := by
        rw [eq_of_beq hpc, eq_of_beq hpc2]
      rw [List.inj_on_of_nodup_map hnd hmem hmem2 hcode]

/-- Claim C3: `verify_coupon` evaluates its five rejection checks in the
fixed precedence order NOT_FOUND, EXPIRED, CONFLICT, EXHAUSTED,
BELOW_MINIMUM — the outcome is that of the first check that fails — and
the outcome does not depend on storage order: it is invariant under
permutation of the cart and, when coupon codes are unique, under
permutation of the registry. -/
theorem verify_coupon_fixed_precedence (cart : List CartItem) (code : String)
    (registry : List Coupon) (now : Int) :
    verify_coupon cart code registry now =
      first_failing_outcome cart code registry now ∧
    (∀ cart2, cart.Perm cart2 →
      verify_coupon cart code registry now =
        verify_coupon cart2 code registry now) ∧
    (∀ registry2, registry.Perm registry2 →
      (registry.map Coupon.code).Nodup →
      verify_coupon cart code registry now =
        verify_coupon cart code registry2 now) := by
  refine ⟨?_, ?_, ?_⟩
  · unfold verify_coupon first_failing_outcome rejection_checks coupon_missing
    cases hf : find_coupon registry code with
    | none => simp [List.find?]
    | some c =>
      cases ha : c.is_active <;>
        cases hw : c.in_window now <;>
        cases hc : cart.any (fun it => it.has_active_flash_sale now) <;>
        cases he : c.exhausted <;>
        by_cases hm : cart_subtotal cart now < c.min_order_amount <;>
        simp [List.find?, Option.any, ha, hw, hc, he, hm]
  · intro cart2 hp
    unfold verify_coupon
    cases hf : find_coupon registry code with
    | none => rfl
    | some c =>
      rw [any_of_perm hp (fun it => it.has_active_flash_sale now),
        cart_subtotal_of_perm hp now]
  · intro registry2 hp hnd
    unfold verify_coupon
    rw [find_coupon_of_perm hp hnd code]

/-- Witness for C3: on a two-item cart and a two-coupon registry the
outcome equals the first failing check's outcome and is unchanged when
the cart or the registry is permuted. -/
theorem verify_coupon_fixed_precedence_witness :
    verify_coupon [plain_item, plain_item2] save20.code [save20, other10] 0 =
      first_failing_outcome [plain_item, plain_item2] save20.code
        [save20, other10] 0 ∧
    verify_coupon [plain_item, plain_item2] save20.code [save20, other10] 0 =
      verify_coupon [plain_item2, plain_item] save20.code [save20, other10] 0 ∧
    verify_coupon [plain_item, plain_item2] save20.code [save20, other10] 0 =
      verify_coupon [plain_item, plain_item2] save20.code [other10, save20] 0 :=
  ⟨(verify_coupon_fixed_precedence [plain_item, plain_item2] save20.code
      [save20, other10] 0).1,
   (verify_coupon_fixed_precedence [plain_item, plain_item2] save20.code
      [save20, other10] 0).2.1 [plain_item2, plain_item]
      (List.Perm.swap plain_item2 plain_item []),
   (verify_coupon_fixed_precedence [plain_item, plain_item2] save20.code
      [save20, other10] 0).2.2 [other10, save20]
      (List.Perm.swap other10 save20 [])
      (by simp [save20, other10])⟩

/-- Counterexample to C4 as stated: a cart holding an item with an active
flash-sale discount, validated against a code that resolves to no coupon,
yields NOT_FOUND — the unknown-code check precedes the flash-sale
conflict check — so the outcome is not CONFLICT regardless of coupon
validity. -/
theorem verify_coupon_conflict_counterexample :
    ([flash_item].any (fun it => it.has_active_flash_sale 0) = true) ∧
    verify_coupon [flash_item] save20.code [] 0 = .NOT_FOUND ∧
    (CouponOutcome.NOT_FOUND ≠ .CONFLICT) :=
  ⟨ rfl, rfl, fun h => nomatch h⟩

/-- Claim C4 (amended): for every cart containing an item with an active
flash-sale discount, whenever the code resolves to an existing active
coupon whose date window contains `now`, `verify_coupon` returns
CONFLICT — regardless of the coupon's usage count or minimum order
amount. -/
theorem verify_coupon_conflict_when_coupon_live
    (cart : List CartItem) (code : String) (registry : List Coupon)
    (now : Int) (c : Coupon)
    (hfind : find_coupon registry code = some c)
    (hact : c.is_active = true)
    (hwin : c.in_window now = true)
    (hconf : cart.any (fun it => it.has_active_flash_sale now) = true) :
    verify_coupon cart code registry now = .CONFLICT := by
  unfold verify_coupon
  rw [hfind]
  simp [hact, hwin, hconf]

/-- Witness for the amended C4: the repository's conflict test — active
coupon SAVE20, a flash-sale item in the cart — is rejected with
CONFLICT. -/
theorem verify_coupon_conflict_when_coupon_live_witness :
    find_coupon [save20] save20.code = some save20 ∧
    save20.is_active = true ∧
    save20.in_window 0 = true ∧
    ([flash_item].any (fun it => it.has_active_flash_sale 0) = true) ∧
    verify_coupon [flash_item] save20.code [save20] 0 = .CONFLICT :=
  ⟨ rfl, rfl, rfl, rfl,
   verify_coupon_conflict_when_coupon_live [flash_item] save20.code
     [save20] 0 save20 rfl rfl rfl rfl⟩

/-- Claim C5: whenever `verify_coupon` succeeds, the computed discount
amount is at most the cart subtotal. -/
theorem verify_coupon_success_amount_le_subtotal
    (cart : List CartItem) (code : String) (registry : List Coupon)
    (now : Int) (amt : ℚ)
    (h : verify_coupon cart code registry now = .SUCCESS amt) :
    amt ≤ cart_subtotal cart now := by
  unfold verify_coupon at h
  split at h
  · exact CouponOutcome.noConfusion h
  · split_ifs at h
    all_goals
      first
        | exact CouponOutcome.noConfusion h
        | (injection h with h2
           rw [← h2]
           exact min_le_right _ _)

/-- Witness for C5: coupon SAVE20 (20%) on a plain one-item cart of
subtotal 1000 succeeds with amount 200, which is at most 1000. -/
theorem verify_coupon_success_amount_le_subtotal_witness :
    verify_coupon [plain_item] save20.code [save20] 0 = .SUCCESS 200 ∧
    (200 : ℚ) ≤ cart_subtotal [plain_item] 0 := by
  have h : verify_coupon [plain_item] save20.code [save20] 0 =
      .SUCCESS 200 := by
    unfold verify_coupon
    norm_num [find_coupon, List.find?, save20, Coupon.in_window,
      Coupon.exhausted, Coupon.success_amount, discount_amount,
      cart_subtotal, resolve_price, plain_item, flash_phone,
      CartItem.has_active_flash_sale, min_def]
  exact ⟨h, verify_coupon_success_amount_le_subtotal [plain_item]
    save20.code [save20] 0 200 h⟩

/-- Claim C6: neither price resolution nor coupon validation mutates any
input state: the product, discount records, cart and coupon registry
after a call are the ones passed in, and in particular no usage count
changes during validation, under every outcome. -/
theorem pricing_and_validation_no_mutation
    (p : Product) (ds : List FlashSaleProduct) (cart : List CartItem)
    (code : String) (registry : List Coupon) (now : Int) :
    (resolve_price_call p ds now).2 = (p, ds) ∧
    (verify_coupon_call cart code registry now).2 = (cart, registry) ∧
    ((verify_coupon_call cart code registry now).2.2).map Coupon.usage_count =
      registry.map Coupon.usage_count :=
  ⟨ rfl, rfl, rfl⟩

/-- Claim C7: `resolve_price` and `verify_coupon` are deterministic
functions of their explicit arguments, including the injected `now`: equal
snapshots, code and `now` give equal results. -/
theorem pricing_and_validation_deterministic
    (p p2 : Product) (ds ds2 : List FlashSaleProduct) (n n2 : Int)
    (cart cart2 : List CartItem) (code code2 : String)
    (reg reg2 : List Coupon)
    (hp : p = p2) (hds : ds = ds2) (hn : n = n2)
    (hcart : cart = cart2) (hcode : code = code2) (hreg : reg = reg2) :
    resolve_price p ds n = resolve_price p2 ds2 n2 ∧
    verify_coupon cart code reg n = verify_coupon cart2 code2 reg2 n2 := by
  subst hp hds hn hcart hcode hreg
  exact ⟨rfl, rfl⟩

/-- Witness for C7: determinism at the concrete snapshots of the tests. -/
theorem pricing_and_validation_deterministic_witness :
    resolve_price flash_phone [percent50] 0 =
      resolve_price flash_phone [percent50] 0 ∧
    verify_coupon [plain_item] save20.code [save20] 0 =
      verify_coupon [plain_item] save20.code [save20] 0 :=
  pricing_and_validation_deterministic flash_phone flash_phone
    [percent50] [percent50] 0 0 [plain_item] [plain_item]
    save20.code save20.code [save20] [save20] rfl rfl rfl rfl rfl rfl

/-- Claim C8: the data-entry gates admit only records satisfying the
spec §3 invariants — percent value in (0,100], fixed value at most the
base price, usage count at most the usage limit when one is set — and the
core operations preserve them: every record in the state after a
`verify_coupon` or `resolve_price` call is well-formed when every record
before it was. -/
theorem records_invariants
    (c c2 : Coupon) (base : ℚ) (d d2 : FlashSaleProduct)
    (cart : List CartItem) (code : String) (registry : List Coupon)
    (now : Int) (p : Product) (ds : List FlashSaleProduct) :
    (save_coupon c = some c2 → c2.wf) ∧
    (save_flash_sale_product base d = some d2 → d2.wf base) ∧
    ((∀ x ∈ registry, x.wf) →
      ∀ x ∈ (verify_coupon_call cart code registry now).2.2, x.wf) ∧
    ((∀ x ∈ ds, x.wf p.price) →
      ∀ x ∈ (resolve_price_call p ds now).2.2, x.wf p.price) := by
  refine ⟨?_, ?_, fun h => h, fun h => h⟩
  · intro h
    unfold save_coupon at h
    split at h
    next m heq =>
      split_ifs at h with hle
      · injection h with h2
        subst h2
        intro m2 hm2
        rw [heq] at hm2
        injection hm2 with h3
        exact h3 ▸ hle
    next heq =>
      injection h with h2
      subst h2
      intro m2 hm2
      rw [heq] at hm2
      exact Option.noConfusion hm2
  · intro h
    unfold save_flash_sale_product at h
    split at h
    next htype =>
      split_ifs at h with hb
      · injection h with h2
        subst h2
        unfold FlashSaleProduct.wf
        rw [htype]
        exact hb
    next htype =>
      split_ifs at h with hb
      · injection h with h2
        subst h2
        unfold FlashSaleProduct.wf
        rw [htype]
        exact hb

/-- Witness for C8: the sample records pass their data-entry gates and
are well-formed, and validation over a registry of well-formed coupons
leaves only well-formed coupons. -/
theorem records_invariants_witness :
    save_coupon other10 = some other10 ∧
    save_flash_sale_product flash_phone.price percent50 = some percent50 ∧
    other10.wf ∧ percent50.wf flash_phone.price ∧
    (∀ x ∈ (verify_coupon_call [plain_item] save20.code [other10] 0).2.2,
      x.wf) := by
  have h1 : save_coupon other10 = some other10 := by
    norm_num [save_coupon, other10]
  have h2 : save_flash_sale_product flash_phone.price percent50 =
      some percent50 := by
    norm_num [save_flash_sale_product, percent50, flash_phone]
  have hwf : other10.wf :=
    (records_invariants other10 other10 flash_phone.price percent50
      percent50 [plain_item] save20.code [other10] 0 flash_phone
      [percent50]).1 h1
  have hwf2 : percent50.wf flash_phone.price :=
    (records_invariants other10 other10 flash_phone.price percent50
      percent50 [plain_item] save20.code [other10] 0 flash_phone
      [percent50]).2.1 h2
  refine ⟨h1, h2, hwf, hwf2, ?_⟩
  refine (records_invariants other10 other10 flash_phone.price percent50
    percent50 [plain_item] save20.code [other10] 0 flash_phone
    [percent50]).2.2.1 ?_
  intro x hx
  rw [List.mem_singleton] at hx
  subst hx
  exact hwf

/-- Claim C9: each admin bulk action sets the status of every order in
the selected queryset to its value unconditionally — identifiers are kept
and no current status is consulted, so completed or canceled orders are
overwritten like any other. -/
theorem queryset_update_status_statuses (qs : List Order) (s : OrderStatus) :
    (queryset_update_status qs s).map Order.status =
      List.replicate qs.length s := by
  induction qs with
  | nil => rfl
  | cons o t ih =>
    simp only [queryset_update_status, List.map_cons, List.length_cons,
      List.replicate_succ] at ih ⊢
    rw [ih]

theorem queryset_update_status_ids (qs : List Order) (s : OrderStatus) :
    (queryset_update_status qs s).map Order.id = qs.map Order.id := by
  induction qs with
  | nil => rfl
  | cons o t ih =>
    simp only [queryset_update_status, List.map_cons] at ih ⊢
    rw [ih]

theorem order_bulk_actions_unconditional (qs : List Order) :
    (mark_as_paid qs).map Order.status =
      List.replicate qs.length .paid ∧
    (mark_as_shipped qs).map Order.status =
      List.replicate qs.length .shipped ∧
    (mark_as_completed qs).map Order.status =
      List.replicate qs.length .completed ∧
    (mark_as_canceled qs).map Order.status =
      List.replicate qs.length .canceled ∧
    (mark_as_paid qs).map Order.id = qs.map Order.id ∧
    (mark_as_shipped qs).map Order.id = qs.map Order.id ∧
    (mark_as_completed qs).map Order.id = qs.map Order.id ∧
    (mark_as_canceled qs).map Order.id = qs.map Order.id :=
  ⟨queryset_update_status_statuses qs .paid,
   queryset_update_status_statuses qs .shipped,
   queryset_update_status_statuses qs .completed,
   queryset_update_status_statuses qs .canceled,
   queryset_update_status_ids qs .paid,
   queryset_update_status_ids qs .shipped,
   queryset_update_status_ids qs .completed,
   queryset_update_status_ids qs .canceled⟩

/-- Claim C10: the admin display helper never propagates an exception: it
renders the result of `get_final_price()` when that call succeeds and
falls back to rendering the base price when the call raises. -/
theorem get_final_price_display_total (obj : AdminProduct) :
    (∀ q, obj.final_price_result = .ok q →
      get_final_price_display obj = toString q) ∧
    (∀ e, obj.final_price_result = .error e →
      get_final_price_display obj = toString obj.price) := by
  constructor
  · intro q hq
    unfold get_final_price_display
    rw [hq]
  · intro e he
    unfold get_final_price_display
    rw [he]

/-- A product whose `get_final_price()` call returns 500. -/
def ok_product : AdminProduct :=
  { price := 1000, final_price_result := .ok 500 }

/-- A product whose `get_final_price()` call raises. -/
def raising_product : AdminProduct :=
  { price := 1000, final_price_result := .error "boom" }

/-- Witness for C10: the display shows the sale price when the call
succeeds and the base price when it raises. -/
theorem get_final_price_display_total_witness :
    get_final_price_display ok_product = toString (500 : ℚ) ∧
    get_final_price_display raising_product = toString (1000 : ℚ) :=
  ⟨(get_final_price_display_total ok_product).1 500 rfl,
   (get_final_price_display_total raising_product).2 "boom" rfl⟩

end FarnaTask
